import Mathlib

/-!
Verification development for the literature-manager single-page application.

The definitions below are a shallow embedding of `src/App.jsx`:
pure functions model the projection (`filteredAndSortedLiterature`),
the sort-configuration transition (`handleSort`), the rating widget
(`RatingStars`), the password gate (`PasswordGate.handleSubmit`), and
explicit state passing models the CRUD handlers (`handleSave`,
`handleDelete`, `handleStatusChange`) and the snapshot callback.
JavaScript strings are modelled by `String`, JavaScript numbers that the
app stores in `year`/`relevance` by `Int`, and the stable
`Array.prototype.sort` by `List.mergeSort`.
-/

/-- One literature record as stored in a remote document (without the
document id): the fields initialised by `LiteratureModal`'s form state. -/
structure EntryData where
  title : String
  authors : String
  year : Int
  publication : String
  topic : String
  data : String
  unitOfObservations : String
  pic : String
  summary : String
  findings : String
  method : String
  contributions : String
  relevance : Int
  status : String
  link : String
deriving DecidableEq, Repr

/-- An entry as it appears in the local mirror: the snapshot callback merges
the document id with the document data (`{ id: doc.id, ...doc.data() }`). -/
structure Entry extends EntryData where
  id : String
deriving DecidableEq, Repr

/-- `beginsWith n h` holds when the character list `n` is an initial
segment of `h`; auxiliary to the model of JavaScript `String.includes`. -/
def beginsWith : List Char → List Char → Bool
  | [], _ => true
  | _ :: _, [] => false
  | a :: as, b :: bs => a == b && beginsWith as bs

/-- `containsStr n h` models JavaScript `h.includes(n)`: the character list
`n` occurs contiguously somewhere in `h`. -/
def containsStr : List Char → List Char → Bool
  | n, [] => n.isEmpty
  | n, b :: bs => beginsWith n (b :: bs) || containsStr n bs

/-- Model of JavaScript `toLowerCase()` (ASCII letters, as produced by
`Char.toLower`, cover every string the application manipulates). -/
def jsToLower (s : String) : String := ⟨s.data.map Char.toLower⟩

/-- The string representations of an entry's data fields, as
`String(val)` renders them (numbers print in decimal). -/
def entryDataStrings (d : EntryData) : List String :=
  [d.title, d.authors, toString d.year, d.publication, d.topic, d.data,
   d.unitOfObservations, d.pic, d.summary, d.findings, d.method,
   d.contributions, toString d.relevance, d.status, d.link]

/-- `Object.values(item)` for a mirror entry: the merged object holds the
document id together with every data field. -/
def entryStrings (e : Entry) : List String :=
  e.id :: entryDataStrings e.toEntryData

/-- The search predicate of `filteredAndSortedLiterature`:
`Object.values(item).some(val => String(val).toLowerCase().includes(searchTerm.toLowerCase()))`. -/
def matchesSearch (searchTerm : String) (e : Entry) : Bool :=
  (entryStrings e).any fun s =>
    containsStr (jsToLower searchTerm).data (jsToLower s).data

/-- The status-filter step: skipped when the filter is `"All"`, otherwise
keeps entries whose `status` equals the filter. -/
def statusStep (statusFilter : String) (l : List Entry) : List Entry :=
  if statusFilter = "All" then l
  else l.filter fun e => e.status == statusFilter

/-- The search step: skipped when the term is empty (falsy), otherwise
keeps entries matching the case-insensitive all-fields search. -/
def searchStep (searchTerm : String) (l : List Entry) : List Entry :=
  if searchTerm = "" then l else l.filter (matchesSearch searchTerm)

/-- The column keys the table header can sort by. -/
inductive SortKey
  | title
  | authors
  | year
  | relevance
  | status
  | pic
deriving DecidableEq, Repr

/-- Sort direction (`'ascending'` / `'descending'`). -/
inductive Direction
  | ascending
  | descending
deriving DecidableEq, Repr

/-- The `sortConfig` state: `key` is `null` or a column key. -/
structure SortConfig where
  key : Option SortKey
  direction : Direction
deriving DecidableEq, Repr

/-- The three-way comparison the sort callback performs on one field value
pair: `-1` / `1` for `<` and `>` in ascending mode, reversed when
descending, `0` otherwise. -/
def cmpOf {β : Type} [LinearOrder β] (d : Direction) (x y : β) : Int :=
  if x < y then (match d with | .ascending => -1 | .descending => 1)
  else if y < x then (match d with | .ascending => 1 | .descending => -1)
  else 0

/-- The comparator of `filteredAndSortedLiterature`'s sort, applied to the
field selected by `sortConfig.key` (numeric for `year`/`relevance`,
lexicographic for the string columns). -/
def cmpJS (k : SortKey) (d : Direction) (a b : Entry) : Int :=
  match k with
  | .title => cmpOf d a.title b.title
  | .authors => cmpOf d a.authors b.authors
  | .year => cmpOf d a.year b.year
  | .relevance => cmpOf d a.relevance b.relevance
  | .status => cmpOf d a.status b.status
  | .pic => cmpOf d a.pic b.pic

/-- The non-strict order induced by the comparator (`cmp a b <= 0`), the
relation a comparison sort establishes on its output. -/
def sortLe (k : SortKey) (d : Direction) (a b : Entry) : Bool :=
  decide (cmpJS k d a b ≤ 0)

/-- The sort step: a no-op when `sortConfig.key` is `null`, otherwise the
stable sort (`Array.prototype.sort` is stable) under the comparator. -/
def sortStep (cfg : SortConfig) (l : List Entry) : List Entry :=
  match cfg.key with
  | none => l
  | some k => l.mergeSort (sortLe k cfg.direction)

/-- The derived view `filteredAndSortedLiterature`: status filter, then
search filter, then sort. -/
def filteredAndSortedLiterature (literature : List Entry)
    (searchTerm statusFilter : String) (sortConfig : SortConfig) :
    List Entry :=
  sortStep sortConfig (searchStep searchTerm (statusStep statusFilter literature))

/-- The `handleSort` click transition on the sort configuration. -/
def handleSort (key : SortKey) (current : SortConfig) : SortConfig :=
  { key := some key
    direction :=
      if current.key = some key ∧ current.direction = .ascending then
        .descending
      else .ascending }

/-- A remote-store operation issued and acknowledged by Firestore. -/
inductive RemoteOp
  | addDoc (payload : EntryData)
  | updateDoc (id : String) (payload : EntryData)
  | deleteDoc (id : String)
  | updateStatus (id : String) (newStatus : String)
deriving DecidableEq, Repr

/-- The payload a remote operation writes, when it writes a full record. -/
def payloadOf : RemoteOp → Option EntryData
  | .addDoc p => some p
  | .updateDoc _ p => some p
  | .deleteDoc _ => none
  | .updateStatus _ _ => none

/-- The component state of `App` that the CRUD handlers and the
subscription callback touch. -/
structure AppState where
  literature : List Entry
  isModalOpen : Bool
  editingEntry : Option Entry
  showDeleteConfirm : Option String
  isLoading : Bool
deriving DecidableEq, Repr

/-- `closeModal`: clears the entry being edited and hides the modal. -/
def closeModal (st : AppState) : AppState :=
  { st with editingEntry := none, isModalOpen := false }

/-- `closeDeleteConfirm`: hides the delete-confirmation dialog. -/
def closeDeleteConfirm (st : AppState) : AppState :=
  { st with showDeleteConfirm := none }

/-- `openModal`: stages an entry (or `null` for a new one) and shows the
modal. -/
def openModal (entry : Option Entry) (st : AppState) : AppState :=
  { st with editingEntry := entry, isModalOpen := true }

/-- `openDeleteConfirm`: shows the delete-confirmation dialog for an id. -/
def openDeleteConfirm (i : String) (st : AppState) : AppState :=
  { st with showDeleteConfirm := some i }

/-- Outcome of one handler run: the new component state, the remote
operations that committed, and the messages logged via `console.error`. -/
structure MutationResult where
  state : AppState
  committed : List RemoteOp
  errorLog : List String
deriving DecidableEq, Repr

/-- `handleSave`: no-op without a database handle; otherwise updates the
edited document or adds a new one. `remoteOk` is whether the awaited
remote call succeeds: on success `closeModal()` runs, on failure the
`catch` only logs and the modal state is left as it was. -/
def handleSave (db : Bool) (st : AppState) (entryData : EntryData)
    (remoteOk : Bool) : MutationResult :=
  if !db then ⟨st, [], []⟩
  else
    let op := match st.editingEntry with
      | some e => RemoteOp.updateDoc e.id entryData
      | none => RemoteOp.addDoc entryData
    if remoteOk then ⟨closeModal st, [op], []⟩
    else ⟨st, [], ["Error saving document: "]⟩

/-- `handleDelete`: no-op without a database handle or with a falsy id;
otherwise issues the delete. `closeDeleteConfirm()` runs on success and
also in the `catch` branch, after logging. -/
def handleDelete (db : Bool) (st : AppState) (i : String)
    (remoteOk : Bool) : MutationResult :=
  if !db then ⟨st, [], []⟩
  else if i = "" then ⟨st, [], []⟩
  else if remoteOk then ⟨closeDeleteConfirm st, [RemoteOp.deleteDoc i], []⟩
  else ⟨closeDeleteConfirm st, [], ["Error deleting document: "]⟩

/-- `handleStatusChange`: a single-field patch of `status`; failures are
only logged, and no dialog state is involved. -/
def handleStatusChange (db : Bool) (st : AppState) (i newStatus : String)
    (remoteOk : Bool) : MutationResult :=
  if !db then ⟨st, [], []⟩
  else if remoteOk then ⟨st, [RemoteOp.updateStatus i newStatus], []⟩
  else ⟨st, [], ["Error updating status: "]⟩

/-- The `onSnapshot` success callback: replaces the whole local mirror by
the snapshot (`{ id: doc.id, ...doc.data() }` per document) and clears the
loading flag. -/
def onSnapshotNext (st : AppState) (docs : List (String × EntryData)) :
    AppState :=
  { st with
      literature := docs.map fun p => { toEntryData := p.2, id := p.1 }
      isLoading := false }

/-- The PIC dropdown options of `LiteratureModal`. -/
def picOptions : List String :=
  ["Alba", "Favio", "Okada", "Otchia", "Ishikawa", "Seiki"]

/-- The status dropdown options of `LiteratureModal`. -/
def statusOptions : List String :=
  ["To Read", "Reading", "Completed", "Suggested for Benchmark", "Benchmark"]

/-- `LiteratureModal`'s initial form state in create mode: current year,
first PIC option, relevance 2, first status option, all text empty. -/
def defaultFormData (currentYear : Int) : EntryData :=
  { title := "", authors := "", year := currentYear, publication := ""
    topic := "", data := "", unitOfObservations := "", pic := picOptions.headD ""
    summary := "", findings := "", method := "", contributions := ""
    relevance := 2, status := statusOptions.headD "", link := "" }

/-- The star values `RatingStars` can emit: `starValue = index + 1` for
the three stars. -/
def ratingStarValues : List Int := (List.range 3).map fun i => (i : Int) + 1

/-- `handleRatingChange`: stores the clicked star value in the draft. -/
def handleRatingChange (newRating : Int) (fd : EntryData) : EntryData :=
  { fd with relevance := newRating }

/-- `LiteratureModal.handleSubmit` strips the `id` field and hands the
remaining record to `onSave` unchanged. -/
def literatureModalSubmit (formData : Entry) : EntryData :=
  formData.toEntryData

/-- The password-gate state: the session-scoped unlocked flag surfaced to
`AppWrapper`, the error message, and the `sessionStorage` flag. -/
structure GateState where
  unlocked : Bool
  error : String
  sessionFlag : Bool
deriving DecidableEq, Repr

/-- `PasswordGate.handleSubmit`: exact string comparison against the
configured secret; on success calls `onAuthenticated(true)` and persists
the session flag, on failure sets the error message. -/
def gateSubmit (secret input : String) (st : GateState) : GateState :=
  if input = secret then
    { st with unlocked := true, sessionFlag := true }
  else
    { st with error := "Incorrect password. Please try again." }

/-! ### Concrete sample data for witnesses and counterexamples -/

/-- Builds an entry record with the given title, authors, year, relevance
and status, every other field at its form default. -/
def mkData (t a : String) (y r : Int) (s : String) : EntryData :=
  { title := t, authors := a, year := y, publication := ""
    topic := "", data := "", unitOfObservations := "", pic := "Alba"
    summary := "", findings := "", method := "", contributions := ""
    relevance := r, status := s, link := "" }

/-- A sample mirror entry whose authors field contains `"SMITH"`. -/
def entryA : Entry :=
  { toEntryData := mkData "Alpha" "SMITH, J." 2020 1 "To Read", id := "id-a" }

/-- A sample mirror entry with status `"Benchmark"` and the same year as
`entryA`. -/
def entryB : Entry :=
  { toEntryData := mkData "Beta" "Doe" 2020 3 "Benchmark", id := "id-b" }

/-- A sample mirror entry whose document id contains `"zq"`, a string that
occurs in none of its data fields. -/
def entryId : Entry :=
  { toEntryData := mkData "Gamma" "Lee" 2021 2 "Reading", id := "zq-7" }

/-- An out-of-range payload: relevance `0`. -/
def badEntryData : EntryData := mkData "Bad" "Nobody" 2024 0 "To Read"

/-- A component state with the edit modal open. -/
def modalOpenState : AppState :=
  { literature := [], isModalOpen := true, editingEntry := some entryA
    showDeleteConfirm := none, isLoading := false }

/-- A component state in create mode (no entry being edited). -/
def emptyState : AppState :=
  { literature := [], isModalOpen := true, editingEntry := none
    showDeleteConfirm := none, isLoading := false }

/-- A locked gate with no error shown. -/
def lockedGate : GateState :=
  { unlocked := false, error := "", sessionFlag := false }

/-! ### Helper lemmas about the comparator and the projection steps -/

theorem cmpOf_nonpos_iff {β : Type} [LinearOrder β] (d : Direction) (x y : β) :
    cmpOf d x y ≤ 0 ↔
      (match d with | .ascending => x ≤ y | .descending => y ≤ x) := by
  cases d with
  | ascending =>
    unfold cmpOf
    split_ifs with h1 h2
    · exact iff_of_true (by decide) h1.le
    · exact iff_of_false (by decide) (not_le.mpr h2)
    · exact iff_of_true le_rfl (le_of_not_lt h2)
  | descending =>
    unfold cmpOf
    split_ifs with h1 h2
    · exact iff_of_false (by decide) (not_le.mpr h1)
    · exact iff_of_true (by decide) h2.le
    · exact iff_of_true le_rfl (le_of_not_lt h1)

theorem cmpOf_trans {β : Type} [LinearOrder β] (d : Direction) {x y z : β}
    (h1 : cmpOf d x y ≤ 0) (h2 : cmpOf d y z ≤ 0) : cmpOf d x z ≤ 0 := by
  cases d
  · rw [cmpOf_nonpos_iff] at h1 h2 ⊢
    exact le_trans h1 h2
  · rw [cmpOf_nonpos_iff] at h1 h2 ⊢
    exact le_trans h2 h1

theorem cmpOf_total {β : Type} [LinearOrder β] (d : Direction) (x y : β) :
    cmpOf d x y ≤ 0 ∨ cmpOf d y x ≤ 0 := by
  cases d
  · rw [cmpOf_nonpos_iff, cmpOf_nonpos_iff]
    exact le_total x y
  · rw [cmpOf_nonpos_iff, cmpOf_nonpos_iff]
    exact le_total y x

theorem sortLe_iff (k : SortKey) (d : Direction) (a b : Entry) :
    sortLe k d a b = true ↔ cmpJS k d a b ≤ 0 :=
  decide_eq_true_iff

theorem sortLe_trans (k : SortKey) (d : Direction) :
    ∀ a b c : Entry, sortLe k d a b → sortLe k d b c → sortLe k d a c := by
  intro a b c hab hbc
  rw [sortLe_iff] at hab hbc ⊢
  cases k <;> exact cmpOf_trans d hab hbc

theorem sortLe_total (k : SortKey) (d : Direction) :
    ∀ a b : Entry, sortLe k d a b || sortLe k d b a := by
  intro a b
  rw [Bool.or_eq_true, sortLe_iff, sortLe_iff]
  cases k <;> exact cmpOf_total d _ _

theorem mem_sortStep {cfg : SortConfig} {l : List Entry} {e : Entry} :
    e ∈ sortStep cfg l ↔ e ∈ l := by
  obtain ⟨k, d⟩ := cfg
  cases k <;> simp [sortStep]

theorem length_sortStep (cfg : SortConfig) (l : List Entry) :
    (sortStep cfg l).length = l.length := by
  obtain ⟨k, d⟩ := cfg
  cases k <;> simp [sortStep]

theorem mem_of_mem_searchStep {t : String} {l : List Entry} {e : Entry} :
    e ∈ searchStep t l → e ∈ l := by
  unfold searchStep
  split
  · exact id
  · exact fun h => (List.mem_filter.mp h).1

theorem mem_searchStep_iff {t : String} {l : List Entry} {e : Entry}
    (h : t ≠ "") : e ∈ searchStep t l ↔ e ∈ l ∧ matchesSearch t e = true := by
  unfold searchStep
  rw [if_neg h]
  exact List.mem_filter

theorem statusStep_all (l : List Entry) : statusStep "All" l = l := by
  simp [statusStep]

theorem status_of_mem_statusStep {f : String} {l : List Entry} {e : Entry}
    (h : e ∈ statusStep f l) (hf : f ≠ "All") : e.status = f := by
  unfold statusStep at h
  rw [if_neg hf] at h
  simpa using (List.mem_filter.mp h).2

theorem beginsWith_map (f : Char → Char) :
    ∀ {n h : List Char}, beginsWith n h = true →
      beginsWith (n.map f) (h.map f) = true
  | [], _, _ => rfl
  | a :: as, [], hh => by simp [beginsWith] at hh
  | a :: as, b :: bs, hh => by
    simp only [beginsWith, Bool.and_eq_true, beq_iff_eq] at hh
    simp only [List.map, beginsWith, Bool.and_eq_true, beq_iff_eq]
    exact ⟨by rw [hh.1], beginsWith_map f hh.2⟩

theorem containsStr_map (f : Char → Char) :
    ∀ {n h : List Char}, containsStr n h = true →
      containsStr (n.map f) (h.map f) = true
  | n, [], hh => by
    simp only [containsStr, List.isEmpty_iff] at hh
    simp [containsStr, hh]
  | n, b :: bs, hh => by
    simp only [containsStr, Bool.or_eq_true] at hh
    simp only [List.map, containsStr, Bool.or_eq_true]
    rcases hh with h1 | h2
    · exact Or.inl (by simpa using beginsWith_map f h1)
    · exact Or.inr (containsStr_map f h2)

/-! ### Claim theorems -/

/-- C3: for every list of entries, search term and status filter, the
projection under `sortConfig = { key := year, direction := descending }`
yields a sequence whose year values are non-increasing: every adjacent
pair satisfies `year[i] >= year[i+1]`. -/
theorem year_descending_output_nonincreasing (entries : List Entry)
    (searchTerm statusFilter : String) :
    (filteredAndSortedLiterature entries searchTerm statusFilter
        ⟨some SortKey.year, Direction.descending⟩).Chain'
      fun a b => b.year ≤ a.year := by
  unfold filteredAndSortedLiterature sortStep
  have hp := List.sorted_mergeSort
    (sortLe_trans SortKey.year Direction.descending)
    (sortLe_total SortKey.year Direction.descending)
    (searchStep searchTerm (statusStep statusFilter entries))
  refine List.Pairwise.chain' (hp.imp ?_)
  intro a b h
  rw [sortLe_iff] at h
  have h2 : cmpOf Direction.descending a.year b.year ≤ 0 := h
  rw [cmpOf_nonpos_iff] at h2
  exact h2

/-- C6: with `statusFilter = "Benchmark"` every output entry of the
projection has status `"Benchmark"`; with `statusFilter = "All"` the
output has the same cardinality as the search-filtered list alone,
because the status-filter step is skipped. -/
theorem status_filter_exactness (entries : List Entry) (searchTerm : String)
    (cfg : SortConfig) :
    (∀ e ∈ filteredAndSortedLiterature entries searchTerm "Benchmark" cfg,
        e.status = "Benchmark")
    ∧ (filteredAndSortedLiterature entries searchTerm "All" cfg).length
        = (searchStep searchTerm entries).length := by
  constructor
  · intro e he
    have h1 : e ∈ searchStep searchTerm (statusStep "Benchmark" entries) :=
      mem_sortStep.mp he
    exact status_of_mem_statusStep (mem_of_mem_searchStep h1) (by decide)
  · unfold filteredAndSortedLiterature
    rw [statusStep_all, length_sortStep]

/-- Witness for C6 at a concrete input: the single benchmark entry kept by
the `"Benchmark"` filter indeed has that status. -/
theorem status_filter_exactness_witness : entryB.status = "Benchmark" :=
  (status_filter_exactness [entryB] "" ⟨some SortKey.year, Direction.ascending⟩).1
    entryB (by
      unfold filteredAndSortedLiterature
      rw [show searchStep "" (statusStep "Benchmark" [entryB]) = [entryB] by decide]
      simp [sortStep])

/-- C9: clicking a column header sets the key to that column; the
direction becomes descending exactly when the previous configuration had
the same key with ascending direction, and ascending in every other
case. -/
theorem handleSort_toggle (k : SortKey) (c : SortConfig) :
    (c.key = some k ∧ c.direction = Direction.ascending →
        handleSort k c = ⟨some k, Direction.descending⟩)
    ∧ (¬(c.key = some k ∧ c.direction = Direction.ascending) →
        handleSort k c = ⟨some k, Direction.ascending⟩) := by
  constructor
  · intro h
    unfold handleSort
    rw [if_pos h]
  · intro h
    unfold handleSort
    rw [if_neg h]

/-- Witness for C9 at a concrete input: a second click on the ascending
year column flips the direction to descending. -/
theorem handleSort_toggle_witness :
    handleSort SortKey.year ⟨some SortKey.year, Direction.ascending⟩
      = ⟨some SortKey.year, Direction.descending⟩ :=
  (handleSort_toggle SortKey.year
    ⟨some SortKey.year, Direction.ascending⟩).1 ⟨rfl, rfl⟩

/-- C10: the search scans the merged document id as well: a term that
occurs in no data field of `entryId` but does occur in its id still keeps
the entry in the projection. -/
theorem search_matches_id_field :
    ((entryDataStrings entryId.toEntryData).all fun s =>
        !containsStr (jsToLower "zq").data (jsToLower s).data) = true
    ∧ filteredAndSortedLiterature [entryId] "zq" "All"
        ⟨some SortKey.year, Direction.ascending⟩ = [entryId] := by
  refine ⟨by decide, ?_⟩
  unfold filteredAndSortedLiterature
  rw [show searchStep "zq" (statusStep "All" [entryId]) = [entryId] by decide]
  simp [sortStep]

/-- C5: submitting the exact configured secret (case-sensitive string
equality, no normalization) transitions the locked gate to unlocked; any
other submission leaves it locked and surfaces a non-empty error
message. -/
theorem gate_unlocks_iff_secret (secret input : String) (st : GateState)
    (h : st.unlocked = false) :
    ((gateSubmit secret input st).unlocked = true ↔ input = secret)
    ∧ (input ≠ secret → (gateSubmit secret input st).unlocked = false
        ∧ (gateSubmit secret input st).error ≠ "") := by
  by_cases hc : input = secret
  · refine ⟨iff_of_true ?_ hc, fun hne => absurd hc hne⟩
    simp [gateSubmit, hc]
  · constructor
    · refine iff_of_false ?_ hc
      simp [gateSubmit, hc, h]
    · intro _
      refine ⟨by simp [gateSubmit, hc, h], ?_⟩
      simp only [gateSubmit, if_neg hc]
      decide

/-- Witness for C5 at concrete inputs: the exact secret unlocks a locked
gate; a wrong submission leaves it locked with a non-empty error. -/
theorem gate_unlocks_iff_secret_witness :
    (gateSubmit "s3cret" "s3cret" lockedGate).unlocked = true
    ∧ ((gateSubmit "s3cret" "nope" lockedGate).unlocked = false
        ∧ (gateSubmit "s3cret" "nope" lockedGate).error ≠ "") :=
  ⟨(gate_unlocks_iff_secret "s3cret" "s3cret" lockedGate rfl).1.mpr rfl,
   (gate_unlocks_iff_secret "s3cret" "nope" lockedGate rfl).2 (by decide)⟩

/-- C7: for a non-empty search term an entry is kept by the projection
(with the status filter skipped) exactly when some field's string
representation contains the term as a case-insensitive substring; in
particular an entry whose authors field contains `"SMITH"` is matched by
the search term `"smith"`. -/
theorem search_case_insensitivity (entries : List Entry)
    (searchTerm : String) (cfg : SortConfig) (h : searchTerm ≠ "") :
    (∀ e, e ∈ filteredAndSortedLiterature entries searchTerm "All" cfg
        ↔ e ∈ entries ∧ matchesSearch searchTerm e = true)
    ∧ (∀ e ∈ entries, containsStr "SMITH".data e.authors.data = true →
        e ∈ filteredAndSortedLiterature entries "smith" "All" cfg) := by
  constructor
  · intro e
    unfold filteredAndSortedLiterature
    rw [statusStep_all, mem_sortStep, mem_searchStep_iff h]
  · intro e he hs
    unfold filteredAndSortedLiterature
    rw [statusStep_all, mem_sortStep, mem_searchStep_iff (by decide)]
    refine ⟨he, ?_⟩
    unfold matchesSearch
    rw [List.any_eq_true]
    refine ⟨e.authors, ?_, ?_⟩
    · simp [entryStrings, entryDataStrings]
    · have h2 := containsStr_map Char.toLower hs
      have hn : (jsToLower "smith").data = "SMITH".data.map Char.toLower := by
        decide
      rw [hn]
      exact h2

/-- Witness for C7 at a concrete input: `entryA`, whose authors field is
`"SMITH, J."`, survives the search for `"smith"`. -/
theorem search_case_insensitivity_witness :
    entryA ∈ filteredAndSortedLiterature [entryA] "smith" "All"
      ⟨some SortKey.year, Direction.ascending⟩ :=
  (search_case_insensitivity [entryA] "smith"
      ⟨some SortKey.year, Direction.ascending⟩ (by decide)).2
    entryA (by decide) (by decide)

/-- C4: the projection is deterministic — identical inputs give identical
output — and the sort is stable: two entries whose sort keys compare
equal keep, in the output, the relative order they had in the filtered
input, so the order of tied entries is the same on every invocation. -/
theorem projection_deterministic_and_stable (entries : List Entry)
    (searchTerm statusFilter : String) (cfg : SortConfig) (k : SortKey)
    (d : Direction) (a b : Entry) :
    filteredAndSortedLiterature entries searchTerm statusFilter cfg
      = filteredAndSortedLiterature entries searchTerm statusFilter cfg
    ∧ (cmpJS k d a b = 0 →
        List.Sublist [a, b]
          (searchStep searchTerm (statusStep statusFilter entries)) →
        List.Sublist [a, b]
          (filteredAndSortedLiterature entries searchTerm statusFilter
            ⟨some k, d⟩)) := by
  refine ⟨rfl, fun hc hsub => ?_⟩
  unfold filteredAndSortedLiterature sortStep
  refine List.pair_sublist_mergeSort (sortLe_trans k d) (sortLe_total k d)
    ?_ hsub
  rw [sortLe_iff, hc]

/-- Witness for C4 at a concrete input: `entryA` and `entryB` share the
year 2020, and sorting by year keeps them in their input order. -/
theorem projection_deterministic_and_stable_witness :
    List.Sublist [entryA, entryB]
      (filteredAndSortedLiterature [entryA, entryB] "" "All"
        ⟨some SortKey.year, Direction.descending⟩) :=
  (projection_deterministic_and_stable [entryA, entryB] "" "All"
      ⟨some SortKey.year, Direction.descending⟩ SortKey.year
      Direction.descending entryA entryB).2 (by decide)
    (by rw [show searchStep "" (statusStep "All" [entryA, entryB])
          = [entryA, entryB] by decide])

/-- C8: none of the three mutation handlers changes the local mirror of
entries, in any outcome; the subscription callback is the one writer and
replaces the mirror with the snapshot contents. -/
theorem mutations_preserve_mirror (db : Bool) (st : AppState)
    (d : EntryData) (i ns : String) (ok₁ ok₂ ok₃ : Bool)
    (docs : List (String × EntryData)) :
    (handleSave db st d ok₁).state.literature = st.literature
    ∧ (handleDelete db st i ok₂).state.literature = st.literature
    ∧ (handleStatusChange db st i ns ok₃).state.literature = st.literature
    ∧ (onSnapshotNext st docs).literature
        = docs.map fun p => { toEntryData := p.2, id := p.1 } := by
  refine ⟨?_, ?_, ?_, rfl⟩
  · cases db <;> cases ok₁ <;> rfl
  · cases db <;> cases ok₂ <;> by_cases hi : i = "" <;>
      simp [handleDelete, closeDeleteConfirm, hi]
  · cases db <;> cases ok₃ <;> rfl

/-- C1 counterexample: a failing save is logged but does NOT close the
edit modal — `closeModal()` sits inside the `try` block after the awaited
call, so the `catch` branch leaves the modal open, contradicting the
claim that any open dialog is closed regardless of the outcome. -/
theorem save_failure_leaves_modal_open :
    (handleSave true modalOpenState entryA.toEntryData false).errorLog
        = ["Error saving document: "]
    ∧ modalOpenState.isModalOpen = true
    ∧ (handleSave true modalOpenState entryA.toEntryData false).state.isModalOpen
        = true := by decide

/-- C1 (amended): every mutation failure is caught and surfaces only as a
log entry. The delete-confirmation dialog is closed whether the delete
succeeds or fails; the edit modal is closed only when the save succeeds,
and a failing save leaves the component state unchanged (modal still
open); a failing status change also leaves the state unchanged and has no
dialog to close. -/
theorem mutation_failure_dialog_behavior (st : AppState) (d : EntryData)
    (i ns : String) (ok : Bool) :
    (i ≠ "" → (handleDelete true st i ok).state.showDeleteConfirm = none)
    ∧ (handleSave true st d true).state.isModalOpen = false
    ∧ ((handleSave true st d false).state = st
        ∧ (handleSave true st d false).errorLog = ["Error saving document: "])
    ∧ ((handleStatusChange true st i ns false).state = st
        ∧ (handleStatusChange true st i ns false).errorLog
            = ["Error updating status: "])
    ∧ (handleDelete true st i false).errorLog
        = if i = "" then [] else ["Error deleting document: "] := by
  refine ⟨?_, rfl, ⟨rfl, rfl⟩, ⟨rfl, rfl⟩, ?_⟩
  · intro hi
    cases ok <;> simp [handleDelete, closeDeleteConfirm, hi]
  · by_cases hi : i = "" <;> simp [handleDelete, hi]

/-- Witness for C1 (amended) at a concrete input: a failing delete still
dismisses the confirmation dialog. -/
theorem mutation_failure_dialog_behavior_witness :
    (handleDelete true modalOpenState "id-a" false).state.showDeleteConfirm
      = none :=
  (mutation_failure_dialog_behavior modalOpenState entryA.toEntryData
      "id-a" "Reading" false).1 (by decide)

/-- C2 counterexample: `handleSave` performs no relevance validation — a
payload with relevance 0, outside {1,2,3}, is persisted exactly as
submitted. -/
theorem save_persists_out_of_range_relevance :
    (handleSave true emptyState badEntryData true).committed
        = [RemoteOp.addDoc badEntryData]
    ∧ badEntryData.relevance = 0
    ∧ ¬(badEntryData.relevance = 1 ∨ badEntryData.relevance = 2
        ∨ badEntryData.relevance = 3) := by decide

/-- C2 (amended): the save path validates nothing — every payload a
committed save writes is the submitted record unchanged, and the modal's
submit handler only strips the id — while the UI keeps relevance in
range: the three stars emit only the values 1, 2, 3, and the create-mode
default is 2. -/
theorem save_forwards_payload_unchanged (db : Bool) (st : AppState)
    (d : EntryData) (ok : Bool) (y r : Int) (fd : EntryData) (e : Entry) :
    (∀ p ∈ (handleSave db st d ok).committed.filterMap payloadOf, p = d)
    ∧ literatureModalSubmit e = e.toEntryData
    ∧ (∀ v ∈ ratingStarValues, v = 1 ∨ v = 2 ∨ v = 3)
    ∧ (handleRatingChange r fd).relevance = r
    ∧ (defaultFormData y).relevance = 2 := by
  refine ⟨?_, rfl, by decide, rfl, rfl⟩
  intro p hp
  cases db with
  | false => simp [handleSave] at hp
  | true =>
    cases ok with
    | false => simp [handleSave] at hp
    | true =>
      cases hE : st.editingEntry with
      | none =>
        simp [handleSave, hE, payloadOf] at hp
        exact hp
      | some e₀ =>
        simp [handleSave, hE, payloadOf] at hp
        exact hp

/-- Witness for C2 (amended) at concrete inputs: the one payload a
successful create commits is the submitted record itself, and the value
emitted by the third star is in range. -/
theorem save_forwards_payload_unchanged_witness :
    badEntryData = badEntryData
    ∧ ((3 : Int) = 1 ∨ (3 : Int) = 2 ∨ (3 : Int) = 3) :=
  ⟨(save_forwards_payload_unchanged true emptyState badEntryData true
      2024 2 badEntryData entryA).1 badEntryData (by decide),
   (save_forwards_payload_unchanged true emptyState badEntryData true
      2024 2 badEntryData entryA).2.2.1 3 (by decide)⟩
